import Mathlib

/-!
Formal model of the smart water-quality monitoring gateway
(`main.py`, `wqi_calc.py` of the repository): the tiered score
estimator (`predict_wqi`, `model_predict_from_coef`,
`compute_wqi_from_minimal`, heuristic fallback), the reading-store
query (`read_readings_by_state`), the device registry
(`ensure_default_device_mapping`), the `POST /predict` HTTP handler
and the daily clock-aligned trigger check of the main loop.

Python floats are modelled as real numbers (exact arithmetic); a JSON
scalar that may fail `float(...)` coercion is modelled by `PyVal`.
-/

namespace WaterMon

/-- A Python scalar as it appears in a parsed JSON payload: either a value
that `float(...)` coerces to the real number `x`, or a value on which
`float(...)` raises (absent key, `None`, a non-numeric string, ...),
carrying its Python truthiness `truthy` (`None` and the empty string are
falsy, a string such as a word is truthy). -/
inductive PyVal where
  | num (x : ℝ)
  | bad (truthy : Bool)

/-- Python `None`, also what `dict.get` returns on a missing key. -/
def pyNone : PyVal := .bad false

/-- `float(v)`: `some` of the value on success, `none` when the coercion
raises. -/
def pyFloat : PyVal → Option ℝ
  | .num x => some x
  | .bad _ => none

/-- Python truthiness of a scalar; a number is falsy exactly at `0`. -/
noncomputable def pyTruthy : PyVal → Bool
  | .num x => if x = 0 then false else true
  | .bad t => t

/-- Python `a or b` (returns `a` when `a` is truthy, else `b`). -/
noncomputable def pyOr (a b : PyVal) : PyVal := if pyTruthy a then a else b

/-- `_clip` of `wqi_calc.py` (also the inline clamp-to-`[0,100]` pairs of
`if` statements in `main.py`, which agree with it whenever `a < b`). -/
noncomputable def clip (x a b : ℝ) : ℝ := if x < a then a else if x > b then b else x

/-- Python `round(x, 2)`.  Modelled with Mathlib `round` (which rounds a
half up); CPython rounds a half to even, and the two differ only when
`100 * x` is exactly a half-integer, a tie no statement below sits on. -/
noncomputable def pyRound2 (x : ℝ) : ℝ := ((round (100 * x) : ℤ) : ℝ) / 100

/-- The raw heuristic-tier formula of `predict_wqi`
(`main.py` lines 179 and 503). -/
noncomputable def heuristicRaw (t p u : ℝ) : ℝ :=
  50 + (7 - |p - 7|) * 2 - t / 600 * 5 - u / 15 * 8

/-- The heuristic tier: raw formula clamped to `[0,100]` and rounded to two
decimals (`main.py` lines 179-182 and 503-506). -/
noncomputable def heuristicTier (t p u : ℝ) : ℝ :=
  pyRound2 (clip (heuristicRaw t p u) 0 100)

/-- Contents of the optional `model_coef.py` artifact: attributes `b`,
`c_tds`, `c_ph`, `c_turbidity`, each fed to `float(...)` at use sites. -/
structure ModelCoef where
  b : PyVal
  c_tds : PyVal
  c_ph : PyVal
  c_turbidity : PyVal

/-- `model_predict_from_coef` (`main.py` lines 471-481): coerces the three
inputs inside a `try` and returns `None` when that fails, then applies the
linear formula, clips to `[0,100]` and rounds to two decimals.  A
non-coercible coefficient raises in the source; the only caller
(`predict_wqi`, line 487) catches that exception and falls through exactly
as it does for a `None` result, so it is modelled as `none` here. -/
noncomputable def model_predict_from_coef (m : ModelCoef) (tds ph turbidity : PyVal) :
    Option ℝ :=
  match pyFloat tds, pyFloat ph, pyFloat turbidity with
  | some t, some p, some u =>
    match pyFloat m.b, pyFloat m.c_tds, pyFloat m.c_ph, pyFloat m.c_turbidity with
    | some b, some ct, some cp, some cu =>
        some (pyRound2 (clip (b + ct * t + cp * p + cu * u) 0 100))
    | _, _, _, _ => none
  | _, _, _ => none

/-- The secondary-parameter defaults dictionary of
`compute_wqi_from_minimal` (`wqi_calc.py` lines 20-35). -/
structure WqiDefaults where
  DO_mg_L : ℝ
  BOD_mg_L : ℝ
  COD_mg_L : ℝ
  nitrate_mg_L : ℝ
  phosphate_mg_L : ℝ
  fecal_coliform_CFU_100mL : ℝ

/-- The built-in defaults used when `compute_wqi_from_minimal` is called
with `defaults=None`, as every caller in `main.py` does. -/
noncomputable def builtinDefaults : WqiDefaults :=
  { DO_mg_L := 8
    BOD_mg_L := 2
    COD_mg_L := 10
    nitrate_mg_L := 1
    phosphate_mg_L := 0.1
    fecal_coliform_CFU_100mL := 10 }

/-- `wqi_calc.py` line 50. -/
noncomputable def term_pH (ph : ℝ) : ℝ := 8 * clip (1 - |ph - 7| / 1.5) 0 1

/-- `wqi_calc.py` line 51. -/
noncomputable def term_DO (DO : ℝ) : ℝ := 15 * clip (DO / 12) 0 1

/-- `wqi_calc.py` line 52. -/
noncomputable def term_turb (turbidity : ℝ) : ℝ := -8 * Real.tanh (turbidity / 15)

/-- `wqi_calc.py` line 53. -/
noncomputable def term_BOD (BOD : ℝ) : ℝ := -10 * Real.tanh (BOD / 6)

/-- `wqi_calc.py` line 54. -/
noncomputable def term_COD (COD : ℝ) : ℝ := -10 * Real.tanh (COD / 40)

/-- `wqi_calc.py` line 55. -/
noncomputable def term_nitrate (nitrate : ℝ) : ℝ := -6 * Real.tanh (nitrate / 6)

/-- `wqi_calc.py` line 56. -/
noncomputable def term_phosphate (phosphate : ℝ) : ℝ := -6 * Real.tanh (phosphate / 0.8)

/-- `wqi_calc.py` line 57. -/
noncomputable def term_fecal (fecal : ℝ) : ℝ := -8 * Real.tanh (fecal / 150)

/-- `wqi_calc.py` line 58. -/
noncomputable def term_tds (tds : ℝ) : ℝ := -5 * Real.tanh (tds / 600)

/-- The sum assigned to `wqi` on line 60 of `wqi_calc.py`: the base `12`
plus the nine terms, on already-coerced inputs `t`, `p`, `u`. -/
noncomputable def wqiRawSum (t p u : ℝ) (d : WqiDefaults) : ℝ :=
  12 + term_pH p + term_DO d.DO_mg_L + term_turb u + term_BOD d.BOD_mg_L
    + term_COD d.COD_mg_L + term_nitrate d.nitrate_mg_L + term_phosphate d.phosphate_mg_L
    + term_fecal d.fecal_coliform_CFU_100mL + term_tds t

/-- The category chain of `wqi_calc.py` lines 66-77, applied to the clamped
`wqi`: the `(category, desc)` pair. -/
noncomputable def categorize (wqi : ℝ) : String × String :=
  if wqi ≥ 80 then ("Excellent", "Safe for drinking and all uses")
  else if wqi ≥ 60 then ("Good", "Acceptable quality, minor treatment needed")
  else if wqi ≥ 40 then ("Moderate", "Needs treatment before use")
  else ("Poor", "Unsafe, high risk of waterborne diseases")

/-- `compute_wqi_from_minimal` (`wqi_calc.py` lines 19-79): coerces each
input, replacing a non-coercible `tds`, `ph`, `turbidity` by `0.0`, `7.0`,
`0.0` respectively (lines 37-48), sums the base `12` with the nine terms,
clamps to `[0,100]`, classifies into a category with description, and
returns the tuple `(round(wqi, 2), category, desc)`. -/
noncomputable def compute_wqi_from_minimal (tds ph turbidity : PyVal)
    (defaults : WqiDefaults) : ℝ × String × String :=
  let t := (pyFloat tds).getD 0
  let p := (pyFloat ph).getD 7
  let u := (pyFloat turbidity).getD 0
  let wqi := clip (wqiRawSum t p u defaults) 0 100
  let cat := categorize wqi
  (pyRound2 wqi, cat.1, cat.2)

/-- Runtime configuration of the estimator: `model = some m` iff
`model_coef` imported with all four attributes present (`USE_MODEL`), and
`wqiCalcAvailable` iff `wqi_calc.compute_wqi_from_minimal` imported. -/
structure Config where
  model : Option ModelCoef
  wqiCalcAvailable : Bool

/-- `predict_wqi` (`main.py` lines 160-182, the definition in effect while
`main()` runs).  Coerces the three inputs up front and returns `None` when
any coercion raises; otherwise tries the linear-model tier (a coercion
failure on a coefficient is caught and falls through), then
`compute_wqi_from_minimal` when available, then the heuristic formula. -/
noncomputable def predict_wqi (cfg : Config) (tds ph turbidity : PyVal) : Option ℝ :=
  match pyFloat tds, pyFloat ph, pyFloat turbidity with
  | some t, some p, some u =>
    let tier23 : Option ℝ :=
      if cfg.wqiCalcAvailable then
        some (compute_wqi_from_minimal (.num t) (.num p) (.num u) builtinDefaults).1
      else some (heuristicTier t p u)
    match cfg.model with
    | some m =>
      match pyFloat m.b, pyFloat m.c_tds, pyFloat m.c_ph, pyFloat m.c_turbidity with
      | some b, some ct, some cp, some cu =>
          some (pyRound2 (clip (b + ct * t + cp * p + cu * u) 0 100))
      | _, _, _, _ => tier23
    | none => tier23
  | _, _, _ => none

/-- The second `predict_wqi` definition (`main.py` lines 483-508; dead code
while `main()` runs since module execution never passes line 446, kept for
the cited lines): tries `model_predict_from_coef`, then passes the raw
inputs to `compute_wqi_from_minimal` (which coerces them itself), and
otherwise coerces inside the heuristic `try`, returning `None` on
failure. -/
noncomputable def predict_wqi_v2 (cfg : Config) (tds ph turbidity : PyVal) : Option ℝ :=
  let afterModel : Option ℝ :=
    match cfg.model with
    | some m => model_predict_from_coef m tds ph turbidity
    | none => none
  match afterModel with
  | some r => some r
  | none =>
    if cfg.wqiCalcAvailable then
      some (compute_wqi_from_minimal tds ph turbidity builtinDefaults).1
    else
      match pyFloat tds, pyFloat ph, pyFloat turbidity with
      | some t, some p, some u => some (heuristicTier t p u)
      | _, _, _ => none

/-- A parsed `POST /predict` JSON body (`main.py` line 322): the values
found under the keys `tds`, `ph`, `turbidity`, `turb`, each `pyNone` when
the key is absent.  An empty request body parses as the empty object. -/
structure PredictBody where
  tds : PyVal
  ph : PyVal
  turbidity : PyVal
  turb : PyVal

/-- What the `/predict` branch of `serve_forever` sends back
(`main.py` lines 314-329): the status code, `some w` when the JSON
response carries a `wqi` field (with `w = none` rendering as `null`), and
whether it carries an `error` field. -/
structure PredictResp where
  status : ℕ
  wqi : Option (Option ℝ)
  error : Bool

/-- The `POST /predict` branch of `serve_forever` (`main.py` lines
314-329).  `body = none` models the `except` path: the request body was
not decodable/parseable JSON (or not an object, so that `payload.get`
raises), answered `400` with an `error` field.  A parsed object is
answered `200` with `{"wqi": predict_wqi(tds, ph, turbidity or turb)}`;
`predict_wqi` itself never raises, so this branch cannot reach the
`except`. -/
noncomputable def predictHandler (cfg : Config) (body : Option PredictBody) : PredictResp :=
  match body with
  | some p => { status := 200
                wqi := some (predict_wqi cfg p.tds p.ph (pyOr p.turbidity p.turb))
                error := false }
  | none => { status := 400, wqi := none, error := true }

/-! ### Reading store (`read_readings_by_state`, `main.py` lines 132-157) -/

/-- A stored reading as far as the query path inspects it: its `state` tag
(`none` when the record has no `state` field) and the rest of the record,
kept opaque.  A line of the JSONL file is `none` when `json.loads` raises
on it (a malformed line, skipped by the scan). -/
structure Reading where
  state : Option String
  rest : ℕ
deriving DecidableEq

/-- Python `str.lower()` on the ASCII tag strings this system stores,
character by character.  (Core `String.toLower` is the same map but is
defined by well-founded recursion and so does not evaluate inside the
kernel; this definition does.) -/
def pyLower (s : String) : String := ⟨s.data.map Char.toLower⟩

/-- The per-record filter of `read_readings_by_state`: with no `state`
argument or with `state.lower() == 'all'` every parsed record matches;
otherwise the record matches when its `state` field is a truthy (non-empty)
string equal to the query case-insensitively. -/
def matchesState (state : Option String) (r : Reading) : Bool :=
  match state with
  | none => true
  | some s =>
    if pyLower s = "all" then true
    else
      match r.state with
      | some st => st ≠ "" && pyLower st = pyLower s
      | none => false

/-- `read_readings_by_state` (`main.py` lines 132-157): linear scan of the
stored lines, skipping malformed ones, collecting records that pass
`matchesState` in file order; then `if limit: return results[-limit:]`
(Python slice semantics, so a falsy `limit` of `0` returns everything and a
negative one drops from the front). -/
def read_readings_by_state (entries : List (Option Reading)) (state : Option String)
    (limit : Option ℤ) : List Reading :=
  let results := entries.filterMap fun e =>
    match e with
    | none => none
    | some r => if matchesState state r then some r else none
  match limit with
  | none => results
  | some l =>
    if l = 0 then results
    else if 0 < l then results.drop (results.length - l.toNat)
    else results.drop (-l).toNat

/-! ### Device registry (`ensure_default_device_mapping`, `main.py` 112-116) -/

/-- The persisted device map, a JSON object keyed by device id whose values
are objects `{"state": tag}`; modelled as an association list in insertion
order with the tag as value. -/
def DeviceMap := List (String × String)

/-- `ensure_default_device_mapping` (`main.py` lines 112-116): reload the
map, and only when the device id is absent insert `{"state": default}` and
persist.  The map state threaded here is the persisted file contents. -/
def ensure_default_device_mapping (dmap : List (String × String)) (device_id : String)
    (default_state : String) : List (String × String) :=
  if (dmap.lookup device_id).isNone then dmap ++ [(device_id, default_state)] else dmap

/-! ### Daily clock-aligned trigger (`main.py` lines 392-433) -/

/-- `TIMEZONE_OFFSET_SECONDS` (`main.py` line 23): Asia/Kolkata, UTC+5:30. -/
def TIMEZONE_OFFSET_SECONDS : ℕ := 5 * 3600 + 30 * 60

/-- Local timestamp as `local_time_tuple` computes it (`main.py` 64-68):
the RTC epoch seconds plus the fixed offset. -/
def localTs (utc : ℕ) : ℕ := utc + TIMEZONE_OFFSET_SECONDS

/-- The local calendar date, as the day index of the local timestamp
(the `(year, month, day)` of `time.localtime`, flattened). -/
def localDate (utc : ℕ) : ℕ := localTs utc / 86400

/-- The local hour `lt[3]`. -/
def localHour (utc : ℕ) : ℕ := localTs utc % 86400 / 3600

/-- The local minute `lt[4]`. -/
def localMinute (utc : ℕ) : ℕ := localTs utc % 3600 / 60

/-- Whether the name `last_daily_trigger_date` is in `globals()` when the
main loop evaluates `'last_daily_trigger_date' not in globals()`
(`main.py` line 426).  The variable is only ever assigned inside `main()`
(lines 399, 402, 405, 430) with no `global` declaration, so it is a
function local and never appears in the module `globals()` dictionary. -/
def lastDailyInGlobals : Bool := false

/-- One iteration of the daily 06:00 check (`main.py` lines 419-433),
given the last-daily-trigger date the loop carries and this tick's clock
reading and publish outcome (`pubOk` is whether `client.publish` inside
`publish_trigger` succeeds, line 239).  Returns whether a trigger was
published and the updated last-trigger date. -/
def dailyTick (last : Option ℕ) (utc : ℕ) (pubOk : Bool) : Bool × Option ℕ :=
  let today := localDate utc
  if localHour utc = 6 ∧ localMinute utc = 0 then
    if !lastDailyInGlobals || last ≠ some today then
      if pubOk then (true, some today) else (false, last)
    else (false, last)
  else (false, last)

/-- Run the main loop's daily check over a sequence of ticks, counting the
triggers it publishes. -/
def dailyRun (last : Option ℕ) : List (ℕ × Bool) → ℕ
  | [] => 0
  | (utc, pubOk) :: rest =>
    let step := dailyTick last utc pubOk
    (if step.1 then 1 else 0) + dailyRun step.2 rest

/-! ### Helper lemmas: clipping, rounding, tanh bounds -/

lemma le_clip (x a b : ℝ) (hab : a ≤ b) : a ≤ clip x a b := by
  rw [clip]
  split_ifs with h1 h2
  · exact le_refl a
  · exact hab
  · exact not_lt.mp h1

lemma clip_le (x a b : ℝ) (hab : a ≤ b) : clip x a b ≤ b := by
  rw [clip]
  split_ifs with h1 h2
  · exact hab
  · exact le_refl b
  · exact not_lt.mp h2

lemma clip_eq_self (x a b : ℝ) (h1 : a ≤ x) (h2 : x ≤ b) : clip x a b = x := by
  rw [clip, if_neg (not_lt.mpr h1), if_neg (not_lt.mpr h2)]

lemma clip_lt_of_lt (x c : ℝ) (hx : x < c) (hc : 0 < c) (hcb : c ≤ 100) :
    clip x 0 100 < c := by
  rw [clip]
  split_ifs with h1 h2
  · exact hc
  · linarith
  · exact hx

lemma round_mono {x y : ℝ} (h : x ≤ y) : round x ≤ round y := by
  rw [round_eq, round_eq]
  exact Int.floor_mono (by linarith)

lemma pyRound2_le (x : ℝ) : pyRound2 x ≤ x + 1 / 200 := by
  rw [pyRound2, round_eq]
  have h := Int.floor_le (100 * x + 1 / 2)
  linarith

lemma lt_pyRound2 (x : ℝ) : x - 1 / 200 < pyRound2 x := by
  rw [pyRound2, round_eq]
  have h := Int.lt_floor_add_one (100 * x + 1 / 2)
  linarith

lemma pyRound2_nonneg {x : ℝ} (h : 0 ≤ x) : 0 ≤ pyRound2 x := by
  rw [pyRound2]
  have h0 : round (0 : ℝ) ≤ round (100 * x) := round_mono (by linarith)
  rw [round_zero] at h0
  have : (0 : ℝ) ≤ ((round (100 * x) : ℤ) : ℝ) := by exact_mod_cast h0
  linarith

lemma pyRound2_le_100 {x : ℝ} (h : x ≤ 100) : pyRound2 x ≤ 100 := by
  rw [pyRound2]
  have h0 : round (100 * x) ≤ round ((10000 : ℤ) : ℝ) := round_mono (by push_cast; linarith)
  rw [round_intCast] at h0
  have : ((round (100 * x) : ℤ) : ℝ) ≤ 10000 := by exact_mod_cast h0
  linarith

lemma pyRound2_eq (x : ℝ) (n : ℤ) (h : 100 * x = (n : ℝ)) : pyRound2 x = (n : ℝ) / 100 := by
  rw [pyRound2, h, round_intCast]

lemma round2_clip01 (x : ℝ) :
    0 ≤ pyRound2 (clip x 0 100) ∧ pyRound2 (clip x 0 100) ≤ 100 :=
  ⟨pyRound2_nonneg (le_clip x 0 100 (by norm_num)),
   pyRound2_le_100 (clip_le x 0 100 (by norm_num))⟩

lemma heuristicTier_mem (t p u : ℝ) : 0 ≤ heuristicTier t p u ∧ heuristicTier t p u ≤ 100 :=
  round2_clip01 _

lemma compute_wqi_mem (a b c : PyVal) (d : WqiDefaults) :
    0 ≤ (compute_wqi_from_minimal a b c d).1 ∧ (compute_wqi_from_minimal a b c d).1 ≤ 100 := by
  simp only [compute_wqi_from_minimal]
  exact round2_clip01 _

lemma neg_one_lt_tanh (x : ℝ) : -1 < Real.tanh x := by
  rw [Real.tanh_eq_sinh_div_cosh]
  have hc := Real.cosh_pos x
  rw [lt_div_iff hc]
  have hs := Real.sinh_add_cosh x
  have he := Real.exp_pos x
  nlinarith

lemma tanh_lt_one (x : ℝ) : Real.tanh x < 1 := by
  rw [Real.tanh_eq_sinh_div_cosh]
  exact (div_lt_one (Real.cosh_pos x)).mpr (Real.sinh_lt_cosh x)

lemma tanh_nonneg {x : ℝ} (h : 0 ≤ x) : 0 ≤ Real.tanh x := by
  rw [Real.tanh_eq_sinh_div_cosh]
  apply div_nonneg _ (le_of_lt (Real.cosh_pos x))
  rw [Real.sinh_eq]
  have : Real.exp (-x) ≤ Real.exp x := Real.exp_le_exp.mpr (by linarith)
  linarith

lemma tanh_eq_exp (x : ℝ) :
    Real.tanh x = (Real.exp (2 * x) - 1) / (Real.exp (2 * x) + 1) := by
  rw [Real.tanh_eq_sinh_div_cosh, Real.sinh_eq, Real.cosh_eq, Real.exp_neg]
  have he : Real.exp x ≠ 0 := ne_of_gt (Real.exp_pos x)
  have h2 : Real.exp (2 * x) = Real.exp x * Real.exp x := by
    rw [two_mul, Real.exp_add]
  have hd : Real.exp (2 * x) + 1 ≠ 0 := by
    have := Real.exp_pos (2 * x); linarith
  rw [h2]
  field_simp

lemma exp_twothirds_gt : (33 : ℝ) / 17 < Real.exp (2 / 3) := by
  have h1 : (0 : ℝ) < Real.exp (2 / 3) := Real.exp_pos _
  have h3 : Real.exp (2 / 3) ^ (3 : ℕ) = Real.exp 2 := by
    rw [← Real.exp_nat_mul]; norm_num
  have h2 : Real.exp 2 = Real.exp 1 ^ (2 : ℕ) := by
    rw [← Real.exp_nat_mul]; norm_num
  have he : (2.7182818283 : ℝ) < Real.exp 1 := Real.exp_one_gt_d9
  have h4 : ((33 : ℝ) / 17) ^ (3 : ℕ) < Real.exp (2 / 3) ^ (3 : ℕ) := by
    rw [h3, h2]; nlinarith
  by_contra hle
  push_neg at hle
  have := pow_le_pow_left (le_of_lt h1) hle 3
  linarith

lemma exp_half_gt : (3 : ℝ) / 2 < Real.exp (1 / 2) := by
  have h1 : (0 : ℝ) < Real.exp (1 / 2) := Real.exp_pos _
  have h3 : Real.exp (1 / 2) ^ (2 : ℕ) = Real.exp 1 := by
    rw [← Real.exp_nat_mul]; norm_num
  have he : (2.7182818283 : ℝ) < Real.exp 1 := Real.exp_one_gt_d9
  have h4 : ((3 : ℝ) / 2) ^ (2 : ℕ) < Real.exp (1 / 2) ^ (2 : ℕ) := by
    rw [h3]; nlinarith
  by_contra hle
  push_neg at hle
  have := pow_le_pow_left (le_of_lt h1) hle 2
  linarith

lemma tanh_third_gt : (0.32 : ℝ) < Real.tanh (1 / 3) := by
  rw [tanh_eq_exp]
  have h1 : (2 : ℝ) * (1 / 3) = 2 / 3 := by norm_num
  rw [h1]
  have h2 := exp_twothirds_gt
  have h3 : (0 : ℝ) < Real.exp (2 / 3) + 1 := by
    have := Real.exp_pos (2 / 3 : ℝ); linarith
  rw [lt_div_iff h3]
  nlinarith

lemma tanh_quarter_gt : (0.2 : ℝ) < Real.tanh (1 / 4) := by
  rw [tanh_eq_exp]
  have h1 : (2 : ℝ) * (1 / 4) = 1 / 2 := by norm_num
  rw [h1]
  have h2 := exp_half_gt
  have h3 : (0 : ℝ) < Real.exp (1 / 2) + 1 := by
    have := Real.exp_pos (1 / 2 : ℝ); linarith
  rw [lt_div_iff h3]
  nlinarith

/-! ### Bounds on the individual terms of `compute_wqi_from_minimal` -/

lemma term_pH_le (p : ℝ) : term_pH p ≤ 8 := by
  have := clip_le (1 - |p - 7| / 1.5) 0 1 (by norm_num)
  rw [term_pH]; linarith

lemma term_pH_at_7 : term_pH 7 = 8 := by
  rw [term_pH]
  norm_num
  rw [clip_eq_self 1 0 1 (by norm_num) (by norm_num)]

lemma term_DO_at_8 : term_DO 8 = 10 := by
  rw [term_DO, clip_eq_self (8 / 12) 0 1 (by norm_num) (by norm_num)]
  norm_num

lemma term_turb_le (u : ℝ) : term_turb u ≤ 8 := by
  have := neg_one_lt_tanh (u / 15)
  rw [term_turb]; nlinarith

lemma term_tds_le (t : ℝ) : term_tds t ≤ 5 := by
  have := neg_one_lt_tanh (t / 600)
  rw [term_tds]; nlinarith

lemma term_turb_at_0 : term_turb 0 = 0 := by
  rw [term_turb]
  norm_num [Real.tanh_zero]

lemma term_tds_at_0 : term_tds 0 = 0 := by
  rw [term_tds]
  norm_num [Real.tanh_zero]

lemma term_BOD_at_2 : term_BOD 2 < -3.2 := by
  rw [term_BOD]
  have h1 : (2 : ℝ) / 6 = 1 / 3 := by norm_num
  rw [h1]
  have := tanh_third_gt
  nlinarith

lemma term_COD_at_10 : term_COD 10 < -2 := by
  rw [term_COD]
  have h1 : (10 : ℝ) / 40 = 1 / 4 := by norm_num
  rw [h1]
  have := tanh_quarter_gt
  nlinarith

lemma term_nitrate_at_1 : term_nitrate 1 ≤ 0 := by
  rw [term_nitrate]
  have := tanh_nonneg (x := (1 : ℝ) / 6) (by norm_num)
  nlinarith

lemma term_phosphate_at_01 : term_phosphate 0.1 ≤ 0 := by
  rw [term_phosphate]
  have := tanh_nonneg (x := (0.1 : ℝ) / 0.8) (by norm_num)
  nlinarith

lemma term_fecal_at_10 : term_fecal 10 ≤ 0 := by
  rw [term_fecal]
  have := tanh_nonneg (x := (10 : ℝ) / 150) (by norm_num)
  nlinarith

lemma wqiRawSum_lt_38 (t p u : ℝ) : wqiRawSum t p u builtinDefaults < 38 := by
  have h1 := term_pH_le p
  have h2 := term_turb_le u
  have h3 := term_tds_le t
  have h4 := term_BOD_at_2
  have h5 := term_COD_at_10
  have h6 := term_nitrate_at_1
  have h7 := term_phosphate_at_01
  have h8 := term_fecal_at_10
  have h9 := term_DO_at_8
  simp only [wqiRawSum, builtinDefaults] at *
  linarith

lemma categorize_poor {w : ℝ} (h : w < 40) :
    categorize w = ("Poor", "Unsafe, high risk of waterborne diseases") := by
  rw [categorize, if_neg (not_le.mpr (by linarith)), if_neg (not_le.mpr (by linarith)),
    if_neg (not_le.mpr h)]

/-! ### Claim theorems -/

/-- C10: for every input triple, `compute_wqi_from_minimal` with its
built-in defaults never fails (a non-coercible `tds`, `ph`, `turbidity` is
replaced by `0.0`, `7.0`, `0.0` respectively, as the last conjunct states),
its returned score is strictly below `40`, and the returned category is
always `"Poor"`. -/
theorem deterministic_tier_always_poor (tds ph turb : PyVal) :
    (compute_wqi_from_minimal tds ph turb builtinDefaults).1 < 40
    ∧ (compute_wqi_from_minimal tds ph turb builtinDefaults).2.1 = "Poor"
    ∧ compute_wqi_from_minimal tds ph turb builtinDefaults
        = compute_wqi_from_minimal (.num ((pyFloat tds).getD 0))
            (.num ((pyFloat ph).getD 7)) (.num ((pyFloat turb).getD 0)) builtinDefaults := by
  have hraw := wqiRawSum_lt_38 ((pyFloat tds).getD 0) ((pyFloat ph).getD 7)
    ((pyFloat turb).getD 0)
  have hclip : clip (wqiRawSum ((pyFloat tds).getD 0) ((pyFloat ph).getD 7)
      ((pyFloat turb).getD 0) builtinDefaults) 0 100 < 38 :=
    clip_lt_of_lt _ 38 hraw (by norm_num) (by norm_num)
  refine ⟨?_, ?_, rfl⟩
  · have hle := pyRound2_le (clip (wqiRawSum ((pyFloat tds).getD 0) ((pyFloat ph).getD 7)
      ((pyFloat turb).getD 0) builtinDefaults) 0 100)
    simp only [compute_wqi_from_minimal]
    linarith
  · simp only [compute_wqi_from_minimal, categorize_poor (by linarith : clip (wqiRawSum
      ((pyFloat tds).getD 0) ((pyFloat ph).getD 7) ((pyFloat turb).getD 0)
      builtinDefaults) 0 100 < 40)]

/-- C4 counterexample: evaluated at `(tds=0, ph=7.0, turbidity=0)` with the
built-in defaults, the deterministic tier's value before the penalty terms
is exactly `30`, not `35` (the DO term is `10`, not `15`), and the penalty
terms are far from zero: the final returned score is below `27`. -/
theorem deterministic_prepenalty_not_near_35 :
    12 + term_pH 7 + term_DO builtinDefaults.DO_mg_L = 30
    ∧ 12 + term_pH 7 + term_DO builtinDefaults.DO_mg_L ≠ 35
    ∧ (compute_wqi_from_minimal (.num 0) (.num 7) (.num 0) builtinDefaults).1 < 27 := by
  have hDO : builtinDefaults.DO_mg_L = 8 := rfl
  have h30 : 12 + term_pH 7 + term_DO builtinDefaults.DO_mg_L = 30 := by
    rw [hDO, term_pH_at_7, term_DO_at_8]; norm_num
  refine ⟨h30, by rw [h30]; norm_num, ?_⟩
  have hraw : wqiRawSum 0 7 0 builtinDefaults < 25 := by
    have h4 := term_BOD_at_2
    have h5 := term_COD_at_10
    have h6 := term_nitrate_at_1
    have h7 := term_phosphate_at_01
    have h8 := term_fecal_at_10
    simp only [wqiRawSum, builtinDefaults, term_pH_at_7, term_DO_at_8, term_turb_at_0,
      term_tds_at_0] at *
    linarith
  have hclip : clip (wqiRawSum 0 7 0 builtinDefaults) 0 100 < 25 :=
    clip_lt_of_lt _ 25 hraw (by norm_num) (by norm_num)
  have hle := pyRound2_le (clip (wqiRawSum 0 7 0 builtinDefaults) 0 100)
  simp only [compute_wqi_from_minimal, pyFloat, Option.getD_some]
  linarith

/-- C4 amended: with the built-in defaults (DO=8, BOD=2, COD=10, nitrate=1,
phosphate=0.1, fecal=10), the deterministic tier at `(tds=0, ph=7.0,
turbidity=0)` yields exactly `12 + 8 + 10 = 30` before the penalty terms
(the DO term is `15 * clip(8/12, 0, 1) = 10`), and the penalty terms are
not near zero: they pull the final returned score below `25`. -/
theorem deterministic_prepenalty_eq_30 :
    12 + term_pH 7 + term_DO builtinDefaults.DO_mg_L = 30
    ∧ term_DO builtinDefaults.DO_mg_L = 10
    ∧ (compute_wqi_from_minimal (.num 0) (.num 7) (.num 0) builtinDefaults).1 < 25 := by
  have hDO : builtinDefaults.DO_mg_L = 8 := rfl
  refine ⟨?_, by rw [hDO, term_DO_at_8], ?_⟩
  · rw [hDO, term_pH_at_7, term_DO_at_8]; norm_num
  · have hraw : wqiRawSum 0 7 0 builtinDefaults < 24.9 := by
      have h4 := term_BOD_at_2
      have h5 := term_COD_at_10
      have h6 := term_nitrate_at_1
      have h7 := term_phosphate_at_01
      have h8 := term_fecal_at_10
      simp only [wqiRawSum, builtinDefaults, term_pH_at_7, term_DO_at_8, term_turb_at_0,
        term_tds_at_0] at *
      linarith
    have hclip : clip (wqiRawSum 0 7 0 builtinDefaults) 0 100 < 24.9 :=
      clip_lt_of_lt _ 24.9 hraw (by norm_num) (by norm_num)
    have hle := pyRound2_le (clip (wqiRawSum 0 7 0 builtinDefaults) 0 100)
    simp only [compute_wqi_from_minimal, pyFloat, Option.getD_some]
    linarith

lemma predict_num_isSome (cfg : Config) (t p u : ℝ) :
    (predict_wqi cfg (.num t) (.num p) (.num u)).isSome = true := by
  obtain ⟨mo, avail⟩ := cfg
  cases mo with
  | none => cases avail <;> simp [predict_wqi, pyFloat]
  | some m =>
    obtain ⟨mb, mct, mcp, mcu⟩ := m
    cases mb <;> cases mct <;> cases mcp <;> cases mcu <;> cases avail <;>
      simp [predict_wqi, pyFloat]

lemma pyOr_num_truthy {x : ℝ} (hx : x ≠ 0) (b : PyVal) : pyOr (.num x) b = .num x := by
  simp [pyOr, pyTruthy, hx]

lemma pyOr_pyNone_left (b : PyVal) : pyOr pyNone b = b := by
  simp [pyOr, pyTruthy, pyNone]

lemma heuristicTier_600_7_15 : heuristicTier 600 7 15 = 51 := by
  have hr : heuristicRaw 600 7 15 = 51 := by
    rw [heuristicRaw]; norm_num
  rw [heuristicTier, hr, clip_eq_self 51 0 100 (by norm_num) (by norm_num),
    pyRound2_eq 51 5100 (by norm_num)]
  norm_num

/-- C3 counterexample: with no linear model and `wqi_calc` unavailable, the
heuristic tier answers `predict_wqi(600, 7.0, 15.0)` with `51.00`, which is
not the `37.00 = 50 + 0 - 5 - 8` the claim states. -/
theorem heuristic_at_600_7_15_not_37 :
    predict_wqi ⟨none, false⟩ (.num 600) (.num 7) (.num 15) = some 51
    ∧ (51 : ℝ) ≠ 37 := by
  constructor
  · simp only [predict_wqi, pyFloat, Bool.false_eq_true, if_false]
    rw [heuristicTier_600_7_15]
  · norm_num

/-- C3 amended: the heuristic tier evaluated at `(tds=600, ph=7.0,
turbidity=15.0)` returns exactly `51.00`, that is `50 + (7 - 0) * 2 - 5 - 8`:
at neutral pH the pH term contributes `14`, not `0`. -/
theorem heuristic_at_600_7_15_eq_51 :
    heuristicTier 600 7 15 = 51
    ∧ heuristicRaw 600 7 15 = 50 + (7 - 0) * 2 - 5 - 8 := by
  refine ⟨heuristicTier_600_7_15, ?_⟩
  rw [heuristicRaw]; norm_num

/-- C8: the linear-model tier with coefficients `intercept=10, w_tds=0.01,
w_ph=2, w_turbidity=-0.5` at input `(tds=100, ph=7, turbidity=5)` returns
exactly `clip(10 + 1 + 14 - 2.5, 0, 100) = 22.5`, both through
`model_predict_from_coef` and through the model tier of `predict_wqi`. -/
theorem linear_tier_at_100_7_5 :
    model_predict_from_coef ⟨.num 10, .num (1 / 100), .num 2, .num (-(1 / 2))⟩
        (.num 100) (.num 7) (.num 5) = some 22.5
    ∧ predict_wqi ⟨some ⟨.num 10, .num (1 / 100), .num 2, .num (-(1 / 2))⟩, true⟩
        (.num 100) (.num 7) (.num 5) = some 22.5 := by
  have hv : (10 : ℝ) + 1 / 100 * 100 + 2 * 7 + -(1 / 2) * 5 = 22.5 := by norm_num
  have hc : clip ((10 : ℝ) + 1 / 100 * 100 + 2 * 7 + -(1 / 2) * 5) 0 100 = 22.5 := by
    rw [hv]; exact clip_eq_self _ _ _ (by norm_num) (by norm_num)
  have hr : pyRound2 22.5 = 22.5 := by
    rw [pyRound2_eq 22.5 2250 (by norm_num)]; norm_num
  constructor
  · simp only [model_predict_from_coef, pyFloat]
    rw [hc, hr]
  · simp only [predict_wqi, pyFloat]
    rw [hc, hr]

/-- C5: the daily 06:00 check publishes a trigger on consecutive main-loop
ticks falling in the same 06:00 local minute of the same local date — here
two ticks 30 seconds apart, both with a successful publish, yield two
published triggers.  The guard `last_daily_trigger_date != today` is dead
because `'last_daily_trigger_date' not in globals()` is always true (the
variable is a local of `main()`), contradicting the in-code comments
"trigger at exactly 06:00 once per local date" and "so we don't re-trigger
at 06:00 the same day". -/
theorem daily_trigger_fires_twice_same_date :
    localDate 1800 = localDate 1830
    ∧ localHour 1800 = 6 ∧ localMinute 1800 = 0
    ∧ localHour 1830 = 6 ∧ localMinute 1830 = 0
    ∧ dailyRun none [(1800, true), (1830, true)] = 2 := by
  decide

lemma model_predict_eval :
    model_predict_from_coef ⟨.num 10, .num (1 / 100), .num 2, .num (-(1 / 2))⟩
      (.num 100) (.num 7) (.num 5) = some 22.5 := by
  have hv : (10 : ℝ) + 1 / 100 * 100 + 2 * 7 + -(1 / 2) * 5 = 22.5 := by norm_num
  have hc : clip ((10 : ℝ) + 1 / 100 * 100 + 2 * 7 + -(1 / 2) * 5) 0 100 = 22.5 := by
    rw [hv]; exact clip_eq_self _ _ _ (by norm_num) (by norm_num)
  have hr : pyRound2 22.5 = 22.5 := by
    rw [pyRound2_eq 22.5 2250 (by norm_num)]; norm_num
  simp only [model_predict_from_coef, pyFloat]
  rw [hc, hr]

lemma predict_600_eval :
    predict_wqi ⟨none, false⟩ (.num 600) (.num 7) (.num 15) = some 51 := by
  simp only [predict_wqi, pyFloat, Bool.false_eq_true, if_false]
  rw [heuristicTier_600_7_15]

/-- C1 counterexample: with no linear model loaded and `wqi_calc` available
(the configuration of the repository as shipped), `predict_wqi` applied to
a `tds` value on which `float` raises returns `None` — it does return "no
value", instead of falling through to a tier. -/
theorem predict_wqi_none_on_noncoercible :
    predict_wqi ⟨none, true⟩ (.bad true) (.num 7) (.num 0) = none := rfl

/-- C1 amended: for input triples whose three components are coercible to
numbers, `predict_wqi` always returns a value under every configuration;
and a numeric-coercion failure inside the linear-model tier (a
non-coercible coefficient `b`) is caught locally and falls through to the
next tier, behaving exactly as if no model were loaded.  A coercion
failure on one of the three inputs, however, aborts the whole estimate
with `None` (the counterexample). -/
theorem predict_wqi_total_on_numeric (cfg : Config) (t p u : ℝ) :
    (predict_wqi cfg (.num t) (.num p) (.num u)).isSome = true
    ∧ ∀ m, cfg.model = some m → pyFloat m.b = none →
        predict_wqi cfg (.num t) (.num p) (.num u)
          = predict_wqi ⟨none, cfg.wqiCalcAvailable⟩ (.num t) (.num p) (.num u) := by
  refine ⟨predict_num_isSome cfg t p u, ?_⟩
  rintro ⟨mb, mct, mcp, mcu⟩ hm hb
  obtain ⟨mo, avail⟩ := cfg
  simp only at hm
  subst hm
  cases mb with
  | num x => simp [pyFloat] at hb
  | bad tb =>
    cases mct <;> cases mcp <;> cases mcu <;> cases avail <;>
      simp [predict_wqi, pyFloat]

/-- C1 witness: the amended theorem applied at a concrete configuration
whose model coefficient `b` is non-coercible and concrete numeric input. -/
theorem predict_wqi_total_on_numeric_witness :
    (predict_wqi ⟨some ⟨.bad false, .num 0, .num 0, .num 0⟩, false⟩
        (.num 1) (.num 2) (.num 3)).isSome = true
    ∧ predict_wqi ⟨some ⟨.bad false, .num 0, .num 0, .num 0⟩, false⟩
        (.num 1) (.num 2) (.num 3)
      = predict_wqi ⟨none, false⟩ (.num 1) (.num 2) (.num 3) :=
  ⟨(predict_wqi_total_on_numeric ⟨some ⟨.bad false, .num 0, .num 0, .num 0⟩, false⟩ 1 2 3).1,
   (predict_wqi_total_on_numeric ⟨some ⟨.bad false, .num 0, .num 0, .num 0⟩, false⟩ 1 2 3).2
     ⟨.bad false, .num 0, .num 0, .num 0⟩ rfl rfl⟩

/-- C2: on inputs coercible to numbers the full fallback chain
`predict_wqi` only returns values in `[0,100]`, and so does each tier in
isolation: the linear-model tier `model_predict_from_coef` whenever it
returns a value, the deterministic tier `compute_wqi_from_minimal`
(on all inputs), and the heuristic tier. -/
theorem estimator_range_0_100 :
    (∀ (cfg : Config) (t p u : ℝ) v,
        predict_wqi cfg (.num t) (.num p) (.num u) = some v → 0 ≤ v ∧ v ≤ 100)
    ∧ (∀ (m : ModelCoef) (a b c : PyVal) v,
        model_predict_from_coef m a b c = some v → 0 ≤ v ∧ v ≤ 100)
    ∧ (∀ a b c : PyVal, 0 ≤ (compute_wqi_from_minimal a b c builtinDefaults).1
        ∧ (compute_wqi_from_minimal a b c builtinDefaults).1 ≤ 100)
    ∧ (∀ t p u : ℝ, 0 ≤ heuristicTier t p u ∧ heuristicTier t p u ≤ 100) := by
  refine ⟨?_, ?_, fun a b c => compute_wqi_mem a b c _, fun t p u => heuristicTier_mem t p u⟩
  · intro cfg t p u v h
    obtain ⟨mo, avail⟩ := cfg
    cases mo with
    | none =>
      cases avail <;> (simp [predict_wqi, pyFloat] at h; subst h)
      · exact heuristicTier_mem _ _ _
      · exact compute_wqi_mem _ _ _ _
    | some m =>
      obtain ⟨mb, mct, mcp, mcu⟩ := m
      cases mb <;> cases mct <;> cases mcp <;> cases mcu <;> cases avail <;>
        simp [predict_wqi, pyFloat] at h <;> (subst h; exact round2_clip01 _)
  · intro m a b c v h
    obtain ⟨mb, mct, mcp, mcu⟩ := m
    cases a <;> cases b <;> cases c <;> cases mb <;> cases mct <;> cases mcp <;> cases mcu <;>
      simp [model_predict_from_coef, pyFloat] at h <;> (subst h; exact round2_clip01 _)

/-- C2 witness: the fallback-chain part at the heuristic configuration and
input `(600, 7, 15)` (value `51`), and the linear-tier part at the claim's
coefficients and input `(100, 7, 5)` (value `22.5`). -/
theorem estimator_range_0_100_witness :
    (0 ≤ (51 : ℝ) ∧ (51 : ℝ) ≤ 100) ∧ (0 ≤ (22.5 : ℝ) ∧ (22.5 : ℝ) ≤ 100) :=
  ⟨estimator_range_0_100.1 ⟨none, false⟩ 600 7 15 51 predict_600_eval,
   estimator_range_0_100.2.1 ⟨.num 10, .num (1 / 100), .num 2, .num (-(1 / 2))⟩
     (.num 100) (.num 7) (.num 5) 22.5 model_predict_eval⟩

/-- C6 counterexample: a parseable JSON body whose `tds` field is a truthy
non-numeric value (with numeric `ph` and `turbidity`) is answered with
status `200` and a body `{"wqi": null}` carrying no `error` field — not
with status `400` — because `predict_wqi` returns `None` instead of
raising. -/
theorem predict_endpoint_nonnumeric_gives_200 :
    predictHandler ⟨none, true⟩ (some ⟨.bad true, .num 7, .num 5, pyNone⟩)
      = ⟨200, some none, false⟩ := by
  have h5 : pyOr (.num 5) pyNone = .num 5 := pyOr_num_truthy (by norm_num) _
  simp only [predictHandler, h5]
  rfl

/-- C6 amended: `POST /predict` answers `400` with an `error` field exactly
when the body fails to parse as a JSON object; every parsed body — even one
with non-numeric fields — is answered `200` with a `wqi` field, and when
`tds`, `ph` and the turbidity field are numeric (a nonzero `turbidity`, or
any value under `turb`, since a zero `turbidity` falls through the
`or`-chain to `turb`) the `wqi` value is the numeric `predict_wqi`
result, which is present. -/
theorem predict_endpoint_behavior (cfg : Config) (pb : PredictBody) (t p u : ℝ) :
    predictHandler cfg none = ⟨400, none, true⟩
    ∧ (predictHandler cfg (some pb)).status = 200
    ∧ (predictHandler cfg (some pb)).error = false
    ∧ (u ≠ 0 → (predictHandler cfg (some ⟨.num t, .num p, .num u, pyNone⟩)).wqi
        = some (predict_wqi cfg (.num t) (.num p) (.num u)))
    ∧ (predictHandler cfg (some ⟨.num t, .num p, pyNone, .num u⟩)).wqi
        = some (predict_wqi cfg (.num t) (.num p) (.num u))
    ∧ (predict_wqi cfg (.num t) (.num p) (.num u)).isSome = true := by
  refine ⟨rfl, rfl, rfl, ?_, ?_, predict_num_isSome cfg t p u⟩
  · intro hu
    simp only [predictHandler, pyOr_num_truthy hu]
  · simp only [predictHandler, pyOr_pyNone_left]

/-- C6 witness: the amended theorem at a concrete configuration and body,
discharging the nonzero-turbidity hypothesis at `u = 3`. -/
theorem predict_endpoint_behavior_witness :
    (predictHandler ⟨none, false⟩ (some ⟨.num 1, .num 2, .num 3, pyNone⟩)).wqi
      = some (predict_wqi ⟨none, false⟩ (.num 1) (.num 2) (.num 3)) :=
  (predict_endpoint_behavior ⟨none, false⟩ ⟨pyNone, pyNone, pyNone, pyNone⟩ 1 2 3).2.2.2.1
    (by norm_num)

lemma scan_eq_filter (entries : List (Option Reading)) (state : Option String) :
    (entries.filterMap fun e =>
      match e with
      | none => none
      | some r => if matchesState state r then some r else none)
      = (entries.filterMap id).filter (matchesState state) := by
  induction entries with
  | nil => rfl
  | cons e rest ih =>
    cases e with
    | none => simpa using ih
    | some r => cases hq : matchesState state r <;> simp [hq, ih]

/-- C7: the reading-store query returns, with an absent tag or the tag
`"all"` in any letter case, every well-formed stored record in append
order; with a specific tag it keeps exactly the records whose stored tag
is a non-empty string matching case-insensitively; and a positive limit
`n` returns the last `n` matching records. -/
theorem query_readings_spec :
    (∀ entries : List (Option Reading),
        read_readings_by_state entries none none = entries.filterMap id)
    ∧ (∀ (entries : List (Option Reading)) (s : String), pyLower s = "all" →
        read_readings_by_state entries (some s) none = entries.filterMap id)
    ∧ (∀ (entries : List (Option Reading)) (s : String),
        read_readings_by_state entries (some s) none
          = (entries.filterMap id).filter (matchesState (some s)))
    ∧ (∀ (s : String) (r : Reading), pyLower s ≠ "all" →
        (matchesState (some s) r = true
          ↔ ∃ st, r.state = some st ∧ st ≠ "" ∧ pyLower st = pyLower s))
    ∧ (∀ (entries : List (Option Reading)) (state : Option String) (n : ℤ), 0 < n →
        read_readings_by_state entries state (some n)
          = (read_readings_by_state entries state none).drop
              ((read_readings_by_state entries state none).length - n.toNat)) := by
  refine ⟨?_, ?_, ?_, ?_, ?_⟩
  · intro entries
    simp only [read_readings_by_state]
    rw [scan_eq_filter]
    simp [matchesState]
  · intro entries s hs
    simp only [read_readings_by_state]
    rw [scan_eq_filter]
    simp [matchesState, hs]
  · intro entries s
    simp only [read_readings_by_state]
    exact scan_eq_filter entries (some s)
  · intro s r hs
    cases hr : r.state <;> simp [matchesState, hs, hr]
  · intro entries state n hn
    simp only [read_readings_by_state]
    rw [if_neg hn.ne', if_pos hn]

/-- C7 witness: over a concrete log of five lines (one malformed), the
all-tag query, a lower-case query for tag `"up"` matching mixed-case
records, the tag-match characterization, and `limit = 2` over the matches
returning the last two. -/
theorem query_readings_spec_witness :
    read_readings_by_state
        [some ⟨some "UP", 0⟩, none, some ⟨some "up", 1⟩, some ⟨some "Delhi", 2⟩,
          some ⟨none, 3⟩] (some "All") none
      = [⟨some "UP", 0⟩, ⟨some "up", 1⟩, ⟨some "Delhi", 2⟩, ⟨none, 3⟩]
    ∧ read_readings_by_state
        [some ⟨some "UP", 0⟩, none, some ⟨some "up", 1⟩, some ⟨some "Delhi", 2⟩,
          some ⟨none, 3⟩] (some "up") none
      = [⟨some "UP", 0⟩, ⟨some "up", 1⟩]
    ∧ (matchesState (some "up") ⟨some "UP", 0⟩ = true
        ↔ ∃ st, (some "UP" : Option String) = some st ∧ st ≠ ""
            ∧ pyLower st = pyLower "up")
    ∧ read_readings_by_state
        [some ⟨some "x", 0⟩, some ⟨some "x", 1⟩, some ⟨some "x", 2⟩, some ⟨some "x", 3⟩,
          some ⟨some "x", 4⟩] (some "x") (some 2)
      = [⟨some "x", 3⟩, ⟨some "x", 4⟩] := by
  have h1 := query_readings_spec.2.1
    [some ⟨some "UP", 0⟩, none, some ⟨some "up", 1⟩, some ⟨some "Delhi", 2⟩, some ⟨none, 3⟩]
    "All" (by decide)
  have h2 := query_readings_spec.2.2.1
    [some ⟨some "UP", 0⟩, none, some ⟨some "up", 1⟩, some ⟨some "Delhi", 2⟩, some ⟨none, 3⟩]
    "up"
  have h3 := query_readings_spec.2.2.2.1 "up" (⟨some "UP", 0⟩ : Reading) (by decide)
  have h4 := query_readings_spec.2.2.2.2
    [some ⟨some "x", 0⟩, some ⟨some "x", 1⟩, some ⟨some "x", 2⟩, some ⟨some "x", 3⟩,
      some ⟨some "x", 4⟩] (some "x") 2 (by decide)
  refine ⟨by rw [h1]; decide, by rw [h2]; decide, h3, by rw [h4]; decide⟩

lemma lookup_append_self {l : List (String × String)} {k v : String}
    (h : l.lookup k = none) : (l ++ [(k, v)]).lookup k = some v := by
  induction l with
  | nil => simp
  | cons a rest ih =>
    obtain ⟨ka, va⟩ := a
    by_cases hk : k = ka
    · subst hk; simp [List.lookup_cons] at h
    · simp only [List.lookup_cons, beq_false_of_ne hk] at h
      rw [List.cons_append]
      simp only [List.lookup_cons, beq_false_of_ne hk]
      exact ih h

lemma filter_key_eq_nil {l : List (String × String)} {k : String}
    (h : l.lookup k = none) : l.filter (fun p => p.1 = k) = [] := by
  induction l with
  | nil => rfl
  | cons a rest ih =>
    obtain ⟨ka, va⟩ := a
    by_cases hk : k = ka
    · subst hk; simp [List.lookup_cons] at h
    · simp only [List.lookup_cons, beq_false_of_ne hk] at h
      simpa [List.filter_cons, Ne.symm hk] using ih h

lemma mem_keys_of_lookup_isSome {l : List (String × String)} {k : String}
    (h : (l.lookup k).isSome = true) : k ∈ l.map Prod.fst := by
  induction l with
  | nil => simp [List.lookup] at h
  | cons a rest ih =>
    obtain ⟨ka, va⟩ := a
    by_cases hk : k = ka
    · subst hk; simp
    · simp only [List.lookup_cons, beq_false_of_ne hk] at h
      simp [ih h]

lemma filter_key_length_one {l : List (String × String)} {k : String}
    (hnd : (l.map Prod.fst).Nodup) (hs : (l.lookup k).isSome) :
    (l.filter (fun p => p.1 = k)).length = 1 := by
  induction l with
  | nil => simp [List.lookup] at hs
  | cons a rest ih =>
    obtain ⟨ka, va⟩ := a
    simp only [List.map_cons, List.nodup_cons] at hnd
    by_cases hk : k = ka
    · subst hk
      have hnone : rest.lookup k = none := by
        cases hr : rest.lookup k with
        | none => rfl
        | some v =>
          exact absurd (mem_keys_of_lookup_isSome (by rw [hr]; rfl)) hnd.1
      simp [List.filter_cons, filter_key_eq_nil hnone]
    · simp only [List.lookup_cons, beq_false_of_ne hk] at hs
      simpa [List.filter_cons, Ne.symm hk] using ih hnd.2 hs

/-- C9: `ensure_default_device_mapping` is idempotent on a registry state
with the key-uniqueness invariant of a JSON object: a second (and any
further) call is the identity, the resulting map holds exactly one entry
for the device id, and when the device was absent that entry is the
default one the first call created. -/
theorem ensure_default_idempotent (dmap : List (String × String)) (dev tag : String)
    (hnd : (dmap.map Prod.fst).Nodup) :
    ensure_default_device_mapping (ensure_default_device_mapping dmap dev tag) dev tag
      = ensure_default_device_mapping dmap dev tag
    ∧ ((ensure_default_device_mapping dmap dev tag).filter (fun p => p.1 = dev)).length = 1
    ∧ ((dmap.lookup dev).isNone = true →
        (ensure_default_device_mapping dmap dev tag).lookup dev = some tag) := by
  cases hld : dmap.lookup dev with
  | none =>
    have he : ensure_default_device_mapping dmap dev tag = dmap ++ [(dev, tag)] := by
      rw [ensure_default_device_mapping, if_pos (by rw [hld]; rfl)]
    have hl2 : (dmap ++ [(dev, tag)]).lookup dev = some tag := lookup_append_self hld
    refine ⟨?_, ?_, fun _ => by rw [he]; exact hl2⟩
    · rw [he, ensure_default_device_mapping, if_neg (by rw [hl2]; simp)]
    · rw [he, List.filter_append, filter_key_eq_nil hld]
      simp
  | some v =>
    have he : ensure_default_device_mapping dmap dev tag = dmap := by
      rw [ensure_default_device_mapping, if_neg (by rw [hld]; simp)]
    refine ⟨by rw [he, he], ?_, fun h => by simp at h⟩
    rw [he]
    exact filter_key_length_one hnd (by rw [hld]; rfl)

/-- C9 witness: the theorem at a concrete one-entry registry and a fresh
device id, with the key-uniqueness hypothesis discharged by computation. -/
theorem ensure_default_idempotent_witness :
    ensure_default_device_mapping
        (ensure_default_device_mapping [("ESP32_sensor_001", "Uttar Pradesh")] "dev1"
          "Uttar Pradesh") "dev1" "Uttar Pradesh"
      = ensure_default_device_mapping [("ESP32_sensor_001", "Uttar Pradesh")] "dev1"
          "Uttar Pradesh"
    ∧ ((ensure_default_device_mapping [("ESP32_sensor_001", "Uttar Pradesh")] "dev1"
          "Uttar Pradesh").filter (fun p => p.1 = "dev1")).length = 1
    ∧ (([("ESP32_sensor_001", "Uttar Pradesh")].lookup "dev1").isNone = true →
        (ensure_default_device_mapping [("ESP32_sensor_001", "Uttar Pradesh")] "dev1"
          "Uttar Pradesh").lookup "dev1" = some "Uttar Pradesh") :=
  ensure_default_idempotent [("ESP32_sensor_001", "Uttar Pradesh")] "dev1" "Uttar Pradesh"
    (by decide)

end WaterMon
